import Mathlib

/-!
Shallow embedding of the TradieIQ client logic from src/js/app_js.js and
src/js/auth_js_file.js.

Modelling conventions:
- JS strings are Lean String values; absent/null/undefined fields are Option.
- JS numbers produced by parseFloat are modelled exactly: an inductive JSNum
  with a NaN value, signed infinities, and finite rationals (an exact-rational
  idealisation of IEEE doubles; no rounding is modelled).
- DOM reads/writes, console logging and timers are elided; functions return
  the notifications they raise and the state they leave behind.
- The firebase auth object and firestore store are modelled as explicit
  values threaded through the functions that use them.
-/

namespace TradieIQ

/-- An ASCII whitespace character, the set stripped by the JS trim and
skipped by parseFloat (restricted to ASCII, which covers the inputs here). -/
def isWsChar (c : Char) : Bool :=
  c = ' ' || c = '\t' || c = '\n' || c = '\r' || c = '\x0b' || c = '\x0c'

/-- JS String.prototype.trim: strip leading and trailing whitespace. -/
def jsTrim (s : String) : String :=
  String.mk (((s.data.dropWhile isWsChar).reverse.dropWhile isWsChar).reverse)

/-- JS haystack.includes(needle): substring containment test. -/
def strIncludes (hay pat : String) : Bool :=
  hay.data.tails.any (fun t => pat.data.isPrefixOf t)

/-- JS x || y on strings: x when truthy (non-empty), else y. -/
def jsOrString (x y : String) : String :=
  if x = "" then y else x

/-- JS String.prototype.toLowerCase, character by character. -/
def jsToLower (s : String) : String :=
  String.mk (s.data.map Char.toLower)

/-- An authenticated identity as surfaced by the auth gateway
(auth_js_file.js getCurrentUser / onAuthStateChange). -/
structure User where
  uid : String
  email : String
deriving DecidableEq, Repr

/-- A cached job record as built by the onSnapshot callback in loadUserData:
the document id spread together with the document data.  Fields other than
id may be absent on a stored document, hence Option.  The updatedAt
timestamp is modelled as a Nat tick. -/
structure Job where
  id : String
  client : Option String
  address : Option String
  value : Option String
  status : Option String
  userId : Option String
  updatedAt : Option Nat
deriving DecidableEq, Repr

/-- A JS number as produced by parseFloat and propagated by addition:
NaN, a signed infinity, or a finite value (exact rational idealisation). -/
inductive JSNum where
  | nan
  | inf (neg : Bool)
  | fin (q : ℚ)
deriving DecidableEq, Repr

/-- True exactly on finite JS numbers. -/
def JSNum.isFinite : JSNum → Bool
  | .fin _ => true
  | _ => false

/-- JS addition on numbers: NaN is absorbing, infinities of opposite sign
give NaN, an infinity dominates a finite value. -/
def jsAdd : JSNum → JSNum → JSNum
  | .nan, _ => .nan
  | _, .nan => .nan
  | .inf s, .inf t => if s = t then .inf s else .nan
  | .inf s, .fin _ => .inf s
  | .fin _, .inf t => .inf t
  | .fin a, .fin b => .fin (a + b)

/-- Decimal digit test. -/
def isDigit (c : Char) : Bool :=
  '0' ≤ c && c ≤ '9'

/-- Numeric value of a decimal digit character. -/
def digVal (c : Char) : Nat :=
  c.toNat - '0'.toNat

/-- Value of a list of decimal digit characters read left to right. -/
def natOfDigits (ds : List Char) : Nat :=
  ds.foldl (fun a c => 10 * a + digVal c) 0

/-- Split a leading run of decimal digits off a character list. -/
def takeDigits (cs : List Char) : List Char × List Char :=
  (cs.takeWhile isDigit, cs.dropWhile isDigit)

/-- Exact value of a decimal mantissa with integer digits and fraction
digits. -/
def mantissaVal (intDs fracDs : List Char) : ℚ :=
  (natOfDigits intDs : ℚ) + (natOfDigits fracDs : ℚ) / (10 : ℚ) ^ fracDs.length

/-- Parse the longest unsigned decimal mantissa prefix: digits, optionally a
dot and more digits; at least one digit overall.  Returns the value and the
unconsumed remainder. -/
def parseMantissa (cs : List Char) : Option (ℚ × List Char) :=
  match takeDigits cs with
  | (intDs, rest) =>
    match rest with
    | '.' :: r2 =>
      match takeDigits r2 with
      | (fracDs, r3) =>
        if intDs.isEmpty && fracDs.isEmpty then none
        else some (mantissaVal intDs fracDs, r3)
    | _ => if intDs.isEmpty then none else some ((natOfDigits intDs : ℚ), rest)

/-- Apply an optional exponent part e or E, optional sign, digits to a
mantissa value.  An exponent with no digits is not part of the parsed
prefix and is ignored, as in JS parseFloat. -/
def applyExponent (m : ℚ) (rest : List Char) : ℚ :=
  match rest with
  | c :: r1 =>
    if c = 'e' || c = 'E' then
      let signed : Bool × List Char :=
        match r1 with
        | '-' :: r => (true, r)
        | '+' :: r => (false, r)
        | _ => (false, r1)
      match takeDigits signed.2 with
      | (eds, _) =>
        if eds.isEmpty then m
        else if signed.1 then m / (10 : ℚ) ^ natOfDigits eds
        else m * (10 : ℚ) ^ natOfDigits eds
    else m
  | [] => m

/-- JS parseFloat on a character list: skip leading whitespace, read an
optional sign, accept an Infinity literal, otherwise parse the longest
decimal mantissa prefix with optional exponent; NaN when no prefix parses. -/
def parseFloat (cs : List Char) : JSNum :=
  let cs1 := cs.dropWhile isWsChar
  let signed : Bool × List Char :=
    match cs1 with
    | '-' :: r => (true, r)
    | '+' :: r => (false, r)
    | _ => (false, cs1)
  if "Infinity".data.isPrefixOf signed.2 then JSNum.inf signed.1
  else
    match parseMantissa signed.2 with
    | none => JSNum.nan
    | some (m, rest) =>
      let v := applyExponent m rest
      JSNum.fin (if signed.1 then -v else v)

/-- The replace(/[$,]/g, two-char class) step: drop every dollar sign and
comma from the value string. -/
def stripCurrency (s : String) : List Char :=
  s.data.filter (fun c => !(c = '$' || c = ','))

/-- The numeric contribution of one job in updateDashboardStats:
parseFloat(job.value?.replace(/[$,]/g, empty) || 0).  An absent value and a
value that strips to the empty string are the JS-falsy cases of the || and
give the number 0; otherwise the stripped string goes through parseFloat. -/
def jobNumValue (j : Job) : JSNum :=
  match j.value with
  | none => JSNum.fin 0
  | some s =>
    let stripped := stripCurrency s
    if stripped.isEmpty then JSNum.fin 0 else parseFloat stripped

/-- The totalValue accumulation in updateDashboardStats:
jobs.reduce((sum, job) => sum + parsedValue, 0). -/
def totalValue (jobs : List Job) : JSNum :=
  jobs.foldl (fun acc j => jsAdd acc (jobNumValue j)) (JSNum.fin 0)

/-- The activeJobs filter in updateDashboardStats. -/
def activeJobs (jobs : List Job) : List Job :=
  jobs.filter (fun job => job.status == some "in_progress" || job.status == some "new")

/-- The quotedJobs filter in updateDashboardStats. -/
def quotedJobs (jobs : List Job) : List Job :=
  jobs.filter (fun job => job.status == some "quoted")

/-- The completedJobs filter in updateDashboardStats. -/
def completedJobs (jobs : List Job) : List Job :=
  jobs.filter (fun job => job.status == some "completed")

/-- The derived statistics written to the dashboard by updateDashboardStats.
The today count and the rendered description strings depend only on the
same filters and on wall-clock date formatting, which is elided. -/
structure DashboardStats where
  statsActiveJobs : Nat
  statsQuotes : Nat
  totalValue : JSNum
  activeJobsCount : Nat
  quotedJobsCount : Nat
  completedJobsCount : Nat
deriving Repr

/-- updateDashboardStats as a pure function of the cached job list. -/
def updateDashboardStats (jobs : List Job) : DashboardStats :=
  { statsActiveJobs := (activeJobs jobs).length
    statsQuotes := (quotedJobs jobs).length
    totalValue := totalValue jobs
    activeJobsCount := (activeJobs jobs).length
    quotedJobsCount := (quotedJobs jobs).length
    completedJobsCount := (completedJobs jobs).length }

/-- Spec-side contribution of one record to totalValue, following the spec
words: the numeric value parsed from the value string after removing dollar
signs and commas, with absent or unparsable values contributing 0. -/
def specJobContrib (j : Job) : ℚ :=
  match j.value with
  | none => 0
  | some s =>
    match parseFloat (stripCurrency s) with
    | .fin q => q
    | _ => 0

/-- Spec-side totalValue: the plain rational sum of the per-record
contributions. -/
def specTotalValue (jobs : List Job) : ℚ :=
  (jobs.map specJobContrib).sum

/-- The character class of the escapeHtml replacement regex. -/
def htmlEscapeClass (c : Char) : Bool :=
  c = '&' || c = '<' || c = '>' || c = Char.ofNat 34 || c = Char.ofNat 39

/-- The entity map of escapeHtml; the two quote characters are written via
their code points 34 and 39. -/
def htmlEscapeMap (c : Char) : String :=
  if c = '&' then "&amp;"
  else if c = '<' then "&lt;"
  else if c = '>' then "&gt;"
  else if c = Char.ofNat 34 then "&quot;"
  else if c = Char.ofNat 39 then "&#039;"
  else ""

/-- JS text.replace with a global single-character class and a replacement
function: every matching character is replaced, the rest pass through. -/
def jsReplaceChars (cls : Char → Bool) (repl : Char → String) : List Char → String
  | [] => ""
  | c :: cs =>
    (if cls c then repl c else String.singleton c) ++ jsReplaceChars cls repl cs

/-- escapeHtml: text?.replace(/[class]/g, m => map[m]) || empty-string.
A null or undefined input short-circuits the ?. and the || yields the empty
string; a string input is replaced character-wise (and the || then returns
the replaced string itself, since only the empty string is falsy). -/
def escapeHtml (text : Option String) : String :=
  match text with
  | none => ""
  | some s => jsOrString (jsReplaceChars htmlEscapeClass htmlEscapeMap s.data) ""

/-- Spec-side escapeHtml on a string: each of the five special characters
becomes its entity, every other character is kept unchanged. -/
def escapeHtmlSpec : List Char → String
  | [] => ""
  | c :: cs =>
    (if c = '&' then "&amp;"
     else if c = '<' then "&lt;"
     else if c = '>' then "&gt;"
     else if c = Char.ofNat 34 then "&quot;"
     else if c = Char.ofNat 39 then "&#039;"
     else String.singleton c) ++ escapeHtmlSpec cs

/-- A user-visible notification raised by showNotification. -/
structure Notification where
  title : String
  message : String
deriving DecidableEq, Repr

/-- The sign-in button state: its label and its disabled flag. -/
structure Button where
  text : String
  disabled : Bool
deriving DecidableEq, Repr

/-- The completion of the awaited signInWithEmail call inside handleSignIn:
a success result, a failure result carrying the error message string, or an
unexpected exception reaching the catch block. -/
inductive SignInOutcome where
  | success (user : User)
  | failure (error : String)
  | exception
deriving DecidableEq, Repr

/-- The error-message mapping of the failure branch of handleSignIn:
substring checks on the returned error string. -/
def mapSignInError (error : String) : String :=
  if strIncludes error "user-not-found" then
    "No account found with this email address. Try signing up instead."
  else if strIncludes error "wrong-password" then
    "Incorrect password. Please try again."
  else if strIncludes error "invalid-email" then
    "Invalid email address format."
  else if strIncludes error "invalid-credential" then
    "Invalid email or password. Please check your credentials."
  else if strIncludes error "too-many-requests" then
    "Too many failed attempts. Please wait before trying again."
  else "Error: " ++ error

/-- handleSignIn: given the form inputs, the outcome of the awaited auth
call and the button, returns the button state after the handler finishes
and the notifications raised.  Empty email or password returns before the
button is touched; otherwise the button is set to a disabled Signing-in
state for the duration of the await and the finally block restores the
enabled Sign In state on the success, failure and exception paths alike. -/
def handleSignIn (email password : String) (outcome : SignInOutcome)
    (btn : Button) : Button × List Notification :=
  if email = "" || password = "" then
    (btn, [⟨"Error", "Please enter both email and password"⟩])
  else
    let notes : List Notification :=
      match outcome with
      | .success _ => [⟨"Welcome back!", "Signed in as " ++ email⟩]
      | .failure err => [⟨"Sign In Failed", mapSignInError err⟩]
      | .exception => [⟨"Error", "An unexpected error occurred. Please try again."⟩]
    (⟨"Sign In", false⟩, notes)

/-- The module-level mutable state of app_js.js: currentView, currentTab,
jobs, currentJobId, plus the auth state (currentUser mirrors
auth.currentUser as read by getCurrentUser) and whether the jobsUnsubscribe
handle is live. -/
structure AppState where
  currentView : String
  currentTab : String
  jobs : List Job
  currentJobId : Option String
  currentUser : Option User
  jobsUnsubscribe : Bool
deriving DecidableEq, Repr

/-- The initial module state: currentView starts as loading, no jobs, no
selection, no user, no live subscription. -/
def initState : AppState :=
  { currentView := "loading"
    currentTab := "transcript"
    jobs := []
    currentJobId := none
    currentUser := none
    jobsUnsubscribe := false }

/-- showView: protected views dashboard and jobDetail require a current
user; without one the function recurses to the signIn view, raises Access
Denied and returns without setting the requested view.  Otherwise the
requested view becomes current.  Hiding and unhiding of DOM nodes is
elided. -/
def showView (view : String) (s : AppState) : AppState × List Notification :=
  if h : (view = "dashboard" ∨ view = "jobDetail") ∧ s.currentUser = none then
    let r := showView "signIn" s
    (r.1, r.2 ++ [⟨"Access Denied", "Please sign in to access TradieIQ"⟩])
  else
    ({ s with currentView := view }, [])
termination_by (if view = "dashboard" ∨ view = "jobDetail" then 1 else 0)
decreasing_by
  have hv : ¬("signIn" = "dashboard" ∨ "signIn" = "jobDetail") := by decide
  rw [if_neg hv, if_pos h.1]
  exact Nat.zero_lt_one

/-- Display of a possibly-absent string inside a template literal:
undefined renders as the word undefined. -/
def optDisplay : Option String → String
  | none => "undefined"
  | some s => s

/-- selectJob: denied while signed out; with a user, looks the id up in the
cached list, and on a hit stores it as the selection and notifies; on a
miss does nothing. -/
def selectJob (jobId : String) (s : AppState) : AppState × List Notification :=
  if s.currentUser = none then
    (s, [⟨"Access Denied", "Please sign in to view jobs"⟩])
  else
    match s.jobs.find? (fun j => j.id == jobId) with
    | some job =>
      ({ s with currentJobId := some jobId },
        [⟨"Job Selected", "Selected job: " ++ optDisplay job.client⟩])
    | none => (s, [])

/-- The rows rendered by renderJobs: the first ten cached jobs
(jobs.slice(0, 10)); the produced HTML string is elided. -/
def renderedRows (s : AppState) : List Job :=
  s.jobs.take 10

/-- searchJobs: a blank query re-renders the full list; otherwise the list
is filtered case-insensitively over client and address, an empty result
renders a no-matches message, and a non-empty result is rendered by
temporarily replacing the jobs list with the filtered list and restoring
the saved copy afterwards.  The second component is the list of rows the
sidebar shows after the call. -/
def searchJobs (q : String) (s : AppState) : AppState × List Job :=
  if jsTrim q = "" then
    (s, renderedRows s)
  else
    let ql := jsToLower q
    let filteredJobs := s.jobs.filter (fun j =>
      (match j.client with
       | some c => strIncludes (jsToLower c) ql
       | none => false)
      || (match j.address with
          | some a => strIncludes (jsToLower a) ql
          | none => false))
    if filteredJobs.isEmpty then
      (s, [])
    else
      let originalJobs := s.jobs
      let s1 := { s with jobs := filteredJobs }
      let rows := renderedRows s1
      let s2 := { s1 with jobs := originalJobs }
      (s2, rows)

/-- The observable side effects of the auth/session handlers that the
ordering claims are about: clearing the cached jobs list, clearing the
selection, cancelling the live subscription, recomputing the dashboard
stats and establishing a new subscription for a user id. -/
inductive Action where
  | clearJobs
  | clearSelection
  | unsubscribe
  | updateStats
  | subscribe (uid : String)
deriving DecidableEq, Repr

/-- clearUserData: empty the jobs list, drop the selection, then cancel the
subscription when one is live, then recompute the dashboard stats.  The
second component is the action trace in program order. -/
def clearUserData (s : AppState) : AppState × List Action :=
  let s1 := { s with jobs := [], currentJobId := none }
  let unsub : AppState × List Action :=
    if s1.jobsUnsubscribe then
      ({ s1 with jobsUnsubscribe := false }, [Action.unsubscribe])
    else (s1, [])
  (unsub.1, [Action.clearJobs, Action.clearSelection] ++ unsub.2 ++ [Action.updateStats])

/-- loadUserData: establish the live onSnapshot subscription scoped to the
given user id; the cached list itself only changes on a later push. -/
def loadUserData (uid : String) (s : AppState) : AppState × List Action :=
  ({ s with jobsUnsubscribe := true }, [Action.subscribe uid])

/-- One auth gateway notification as handled by the callback registered in
initializeApp: store the user, then either show the dashboard and activate
the job subscription, or clear the user data and show the sign-in view.
The second component is the action trace in program order. -/
def authStep (user : Option User) (s : AppState) : AppState × List Action :=
  let s1 := { s with currentUser := user }
  match user with
  | some u =>
    let r1 := showView "dashboard" s1
    let r2 := loadUserData u.uid r1.1
    (r2.1, r2.2)
  | none =>
    let r1 := clearUserData s1
    let r2 := showView "signIn" r1.1
    (r2.1, r1.2)

/-- The state reached after a sequence of auth gateway notifications. -/
def runAuth (notifs : List (Option User)) (s : AppState) : AppState :=
  notifs.foldl (fun t n => (authStep n t).1) s

/-- Strict happens-before of two distinct actions inside one trace: both
occur and the first occurrence of a precedes the first occurrence of b. -/
def hb (a b : Action) (t : List Action) : Prop :=
  a ∈ t ∧ b ∈ t ∧ t.indexOf a < t.indexOf b

instance (a b : Action) (t : List Action) : Decidable (hb a b t) :=
  inferInstanceAs (Decidable (a ∈ t ∧ b ∈ t ∧ t.indexOf a < t.indexOf b))

/-- The data of a job document as submitted to the store by createNewJob.
Timestamps are Nat ticks. -/
structure JobData where
  client : String
  address : String
  value : String
  status : String
  transcript : String
  summary : String
  tasks : List String
  materials : List String
  userId : String
  createdAt : Nat
  updatedAt : Nat
deriving DecidableEq, Repr

/-- A document held by the external store: backend-assigned id plus data. -/
structure StoredDoc where
  id : String
  data : JobData
deriving DecidableEq, Repr

/-- addDoc: append a new document with a backend-assigned id. -/
def addDoc (store : List StoredDoc) (newId : String) (d : JobData) :
    List StoredDoc :=
  store ++ [⟨newId, d⟩]

/-- The record built by the onSnapshot callback from one document: the id
spread together with the document data. -/
def docToJob (d : StoredDoc) : Job :=
  { id := d.id
    client := some d.data.client
    address := some d.data.address
    value := some d.data.value
    status := some d.data.status
    userId := some d.data.userId
    updatedAt := some d.data.updatedAt }

/-- The query of loadUserData: documents whose userId equals the given uid,
ordered by updatedAt descending. -/
def querySnapshot (uid : String) (store : List StoredDoc) : List StoredDoc :=
  (store.filter (fun d => d.data.userId == uid)).mergeSort
    (fun a b => Nat.ble b.data.updatedAt a.data.updatedAt)

/-- The job list delivered by one push of the subscription. -/
def snapshotJobs (uid : String) (store : List StoredDoc) : List Job :=
  (querySnapshot uid store).map docToJob

/-- The onSnapshot callback: replace the whole cached list with the pushed
records and recompute the dashboard stats. -/
def jobsPush (records : List Job) (s : AppState) : AppState × DashboardStats :=
  ({ s with jobs := records }, updateDashboardStats records)

/-- createNewJob: denied while signed out; cancelled or blank client or
address prompts return silently; an empty value prompt defaults to the $0
string.  The submitted document carries the trimmed client and address, the
value string, status new, empty transcript and summary, empty task and
material lists, the current user id and the current timestamps.  On store
success the new document is appended, a Job Created notification is raised
and selectJob runs on the new id; on store failure an Error notification is
raised.  The addOk flag models whether the awaited addDoc call succeeds;
newId is the backend-assigned id and now the current timestamp. -/
def createNewJob (clientName address estimatedValue : Option String)
    (addOk : Bool) (newId : String) (now : Nat)
    (s : AppState) (store : List StoredDoc) :
    AppState × List StoredDoc × List Notification :=
  match s.currentUser with
  | none => (s, store, [⟨"Access Denied", "Please sign in to create jobs"⟩])
  | some u =>
    match clientName with
    | none => (s, store, [])
    | some cn =>
      if jsTrim cn = "" then (s, store, [])
      else
        match address with
        | none => (s, store, [])
        | some ad =>
          if jsTrim ad = "" then (s, store, [])
          else
            let ev : String :=
              match estimatedValue with
              | none => "$0"
              | some v => jsOrString v "$0"
            let jobData : JobData :=
              { client := jsTrim cn
                address := jsTrim ad
                value := ev
                status := "new"
                transcript := ""
                summary := ""
                tasks := []
                materials := []
                userId := u.uid
                createdAt := now
                updatedAt := now }
            if addOk then
              let store2 := addDoc store newId jobData
              let r := selectJob newId s
              (r.1, store2,
                [⟨"Job Created", "New job for " ++ cn ++ " has been created successfully"⟩]
                  ++ r.2)
            else
              (s, store, [⟨"Error", "Failed to create job. Please try again."⟩])

/-- A concrete identity used by concrete instantiations below. -/
def userAlice : User :=
  { uid := "u1", email := "alice@example.com" }

/-- A concrete cached job with a parsable value string. -/
def jobSeven : Job :=
  { id := "job-7"
    client := some "Acme"
    address := some "1 Main St"
    value := some "$7"
    status := some "new"
    userId := some "u1"
    updatedAt := some 3 }

/-- A concrete cached job whose value string strips to a non-empty string
with no numeric prefix, so parseFloat yields NaN. -/
def jobUnparsable : Job :=
  { id := "job-8"
    client := some "Beta"
    address := some "2 Side St"
    value := some "abc"
    status := some "quoted"
    userId := some "u1"
    updatedAt := some 4 }

/-- A concrete signed-in state with one cached job and a live
subscription. -/
def stateWithSub : AppState :=
  { currentView := "dashboard"
    currentTab := "transcript"
    jobs := [jobSeven]
    currentJobId := some "job-7"
    currentUser := some userAlice
    jobsUnsubscribe := true }

/-- A concrete signed-in state with an empty cache and no subscription. -/
def signedInState : AppState :=
  { currentView := "dashboard"
    currentTab := "transcript"
    jobs := []
    currentJobId := none
    currentUser := some userAlice
    jobsUnsubscribe := false }

theorem jsOrString_empty_right (x : String) : jsOrString x "" = x := by
  unfold jsOrString
  split <;> simp_all

theorem jsReplaceChars_escape_eq_spec (cs : List Char) :
    jsReplaceChars htmlEscapeClass htmlEscapeMap cs = escapeHtmlSpec cs := by
  induction cs with
  | nil => rfl
  | cons c cs ih =>
    unfold jsReplaceChars escapeHtmlSpec
    rw [ih]
    congr 1
    unfold htmlEscapeClass htmlEscapeMap
    by_cases h1 : c = '&' <;> by_cases h2 : c = '<' <;> by_cases h3 : c = '>' <;>
      by_cases h4 : c = Char.ofNat 34 <;> by_cases h5 : c = Char.ofNat 39 <;>
      simp_all

/-- C10: escapeHtml is total: a null or undefined input yields the empty
string, and a string input yields the string with each of the five special
characters replaced by its HTML entity and every other character kept. -/
theorem C10_escapeHtml_total :
    escapeHtml none = "" ∧ ∀ s : String, escapeHtml (some s) = escapeHtmlSpec s.data := by
  refine ⟨rfl, fun s => ?_⟩
  show jsOrString (jsReplaceChars htmlEscapeClass htmlEscapeMap s.data) "" = _
  rw [jsOrString_empty_right]
  exact jsReplaceChars_escape_eq_spec s.data

/-- C3: the derived activeCount equals the number of cached records whose
status is new or in_progress. -/
theorem C3_activeCount_correct (jobs : List Job) :
    (updateDashboardStats jobs).activeJobsCount =
      jobs.countP (fun j => decide (j.status = some "new" ∨ j.status = some "in_progress")) := by
  show (activeJobs jobs).length = _
  rw [List.countP_eq_length_filter]
  unfold activeJobs
  congr 1
  apply List.filter_congr
  intro j _
  by_cases h1 : j.status = some "in_progress" <;> by_cases h2 : j.status = some "new" <;>
    simp [h1, h2]

/-- C9: searchJobs never changes the contents of the cached job list; the
temporary replacement used for rendering is restored before returning. -/
theorem C9_searchJobs_preserves_cache (q : String) (s : AppState) :
    ((searchJobs q s).1).jobs = s.jobs := by
  unfold searchJobs
  split
  · rfl
  · dsimp only
    split
    · rfl
    · rfl

/-- C6: after handleSignIn finishes, on the success path and on every
failure path including an unexpected exception, the sign-in button is the
enabled Sign In state; when validation fails before the attempt the button
is untouched, so a disabled state never persists past the attempt. -/
theorem C6_signin_button_reset (email password : String) (outcome : SignInOutcome)
    (btn : Button) :
    (handleSignIn email password outcome btn).1 =
      (if email = "" || password = "" then btn else ⟨"Sign In", false⟩) := by
  by_cases h1 : email = ""
  · simp [handleSignIn, h1]
  · by_cases h2 : password = ""
    · simp [handleSignIn, h1, h2]
    · simp [handleSignIn, h1, h2]

/-- C7: while signed in, selecting a job id absent from the cache is a
no-op: no notification is raised and the state, including the selected
job id, is unchanged. -/
theorem C7_selectJob_missing_noop (jobId : String) (s : AppState)
    (h1 : s.currentUser ≠ none) (h2 : ∀ j ∈ s.jobs, j.id ≠ jobId) :
    selectJob jobId s = (s, []) := by
  unfold selectJob
  rw [if_neg h1]
  have hf : s.jobs.find? (fun j => j.id == jobId) = none :=
    List.find?_eq_none.mpr (fun j hj => by simp [h2 j hj])
  rw [hf]

/-- C7 witness: the concrete signed-in state holds only the id job-7, so
selecting the id nope is a no-op. -/
theorem C7_selectJob_missing_noop_witness :
    selectJob "nope" stateWithSub = (stateWithSub, []) :=
  C7_selectJob_missing_noop "nope" stateWithSub (by decide) (by decide)

theorem showView_signIn_eq (s : AppState) :
    showView "signIn" s = ({ s with currentView := "signIn" }, []) := by
  unfold showView
  rw [dif_neg]
  intro hc
  exact absurd hc.1 (by decide)

theorem showView_protected_signedIn (view : String) (s : AppState)
    (h : s.currentUser ≠ none) :
    showView view s = ({ s with currentView := view }, []) := by
  unfold showView
  rw [dif_neg]
  intro hc
  exact h hc.2

theorem authStep_view (n : Option User) (s : AppState) :
    ((authStep n s).1).currentView = if n.isSome then "dashboard" else "signIn" := by
  cases n with
  | none =>
    show ((showView "signIn" (clearUserData { s with currentUser := none }).1).1).currentView = _
    rw [showView_signIn_eq]
    rfl
  | some u =>
    show ((loadUserData u.uid (showView "dashboard" { s with currentUser := some u }).1).1).currentView = _
    rw [showView_protected_signedIn _ _ (by simp)]
    rfl

theorem runAuth_view_stable (notifs : List (Option User)) :
    ∀ s : AppState, (s.currentView = "dashboard" ∨ s.currentView = "signIn") →
      ((runAuth notifs s).currentView = "dashboard" ∨ (runAuth notifs s).currentView = "signIn") := by
  induction notifs with
  | nil => exact fun s hs => hs
  | cons n rest ih =>
    intro s _
    have hstep : runAuth (n :: rest) s = runAuth rest (authStep n s).1 := rfl
    rw [hstep]
    apply ih
    rw [authStep_view]
    cases n <;> simp

/-- C5: the view starts as loading; the first auth notification moves it to
dashboard when it carries an identity and to signIn when it carries none;
and after any non-empty sequence of notifications the view is never loading
again, so loading is exited exactly once. -/
theorem C5_loading_exited_once (notifs : List (Option User)) :
    initState.currentView = "loading"
    ∧ (∀ n : Option User,
        ((authStep n initState).1).currentView = if n.isSome then "dashboard" else "signIn")
    ∧ (notifs ≠ [] → (runAuth notifs initState).currentView ≠ "loading") := by
  refine ⟨rfl, fun n => authStep_view n initState, fun hne => ?_⟩
  cases notifs with
  | nil => exact absurd rfl hne
  | cons n rest =>
    have hstep : runAuth (n :: rest) initState = runAuth rest (authStep n initState).1 := rfl
    rw [hstep]
    have hmem := runAuth_view_stable rest (authStep n initState).1
      (by rw [authStep_view]; cases n <;> simp)
    rcases hmem with h | h <;> rw [h] <;> decide

/-- C5 witness: instantiated at the one-notification sequence carrying the
concrete identity. -/
theorem C5_loading_exited_once_witness :
    initState.currentView = "loading"
    ∧ ((authStep (some userAlice) initState).1).currentView =
        (if (some userAlice).isSome then "dashboard" else "signIn")
    ∧ (runAuth [some userAlice] initState).currentView ≠ "loading" :=
  ⟨(C5_loading_exited_once [some userAlice]).1,
   (C5_loading_exited_once [some userAlice]).2.1 (some userAlice),
   (C5_loading_exited_once [some userAlice]).2.2 (by simp)⟩

/-- C1 counterexample: deactivating the concrete state with a live
subscription produces a trace in which both the cache clear and the
unsubscribe occur, yet the unsubscribe does not happen before the clear;
the cache is cleared first, refuting the claimed ordering. -/
theorem C1_unsubscribe_before_clear_false :
    Action.unsubscribe ∈ (clearUserData stateWithSub).2
    ∧ Action.clearJobs ∈ (clearUserData stateWithSub).2
    ∧ ¬ hb Action.unsubscribe Action.clearJobs (clearUserData stateWithSub).2 := by
  decide

/-- C1 amended: on every deactivation with a live subscription, the cache
clear happens strictly before the unsubscribe inside the same synchronous
trace, and the clear also happens strictly before the subscribe of a
subsequent sign-in notification. -/
theorem C1_clear_before_unsubscribe (s : AppState) (u : User)
    (h : s.jobsUnsubscribe = true) :
    hb Action.clearJobs Action.unsubscribe (clearUserData s).2
    ∧ hb Action.clearJobs (Action.subscribe u.uid)
        ((authStep none s).2 ++ (authStep (some u) (authStep none s).1).2) := by
  have ht : (clearUserData s).2 =
      [Action.clearJobs, Action.clearSelection, Action.unsubscribe, Action.updateStats] := by
    simp [clearUserData, h]
  have ht2 : (authStep none s).2 =
      [Action.clearJobs, Action.clearSelection, Action.unsubscribe, Action.updateStats] := by
    simp [authStep, clearUserData, h]
  have ht3 : (authStep (some u) (authStep none s).1).2 = [Action.subscribe u.uid] := by
    simp [authStep, loadUserData]
  constructor
  · rw [ht]
    decide
  · rw [ht2, ht3]
    refine ⟨by simp, by simp, ?_⟩
    simp only [List.cons_append, List.nil_append]
    rw [List.indexOf_cons_self]
    rw [List.indexOf_cons_ne _ (by simp)]
    exact Nat.succ_pos _

/-- C1 amended witness: instantiated at the concrete state with a live
subscription and the concrete identity. -/
theorem C1_clear_before_unsubscribe_witness :
    hb Action.clearJobs Action.unsubscribe (clearUserData stateWithSub).2
    ∧ hb Action.clearJobs (Action.subscribe userAlice.uid)
        ((authStep none stateWithSub).2
          ++ (authStep (some userAlice) (authStep none stateWithSub).1).2) :=
  C1_clear_before_unsubscribe stateWithSub userAlice rfl

theorem jsAdd_nan_right (x : JSNum) : jsAdd x JSNum.nan = JSNum.nan := by
  cases x <;> rfl

theorem jsAdd_nan_left (x : JSNum) : jsAdd JSNum.nan x = JSNum.nan := by
  cases x <;> rfl

theorem foldl_jsAdd_nan (jobs : List Job) :
    jobs.foldl (fun acc j => jsAdd acc (jobNumValue j)) JSNum.nan = JSNum.nan := by
  induction jobs with
  | nil => rfl
  | cons j rest ih =>
    show List.foldl _ (jsAdd JSNum.nan (jobNumValue j)) rest = _
    rw [jsAdd_nan_left]
    exact ih

theorem parseFloat_nil : parseFloat [] = JSNum.nan := rfl

theorem specTotalValue_cons (j : Job) (rest : List Job) :
    specTotalValue (j :: rest) = specJobContrib j + specTotalValue rest := by
  simp [specTotalValue]

theorem jobNumValue_fin_spec {j : Job} {r : ℚ} (h : jobNumValue j = JSNum.fin r) :
    specJobContrib j = r := by
  cases hv : j.value with
  | none =>
    simp only [jobNumValue, hv] at h
    injection h with h1
    simp only [specJobContrib, hv]
    exact h1
  | some s =>
    simp only [jobNumValue, hv] at h
    simp only [specJobContrib, hv]
    by_cases he : (stripCurrency s).isEmpty
    · rw [if_pos he] at h
      injection h with h1
      have hnil : stripCurrency s = [] := by simpa using he
      rw [hnil, parseFloat_nil]
      exact h1
    · rw [if_neg he] at h
      rw [h]

theorem foldl_totalValue_fin (jobs : List Job) :
    ∀ q : ℚ, (∀ j ∈ jobs, (jobNumValue j).isFinite = true) →
      jobs.foldl (fun acc j => jsAdd acc (jobNumValue j)) (JSNum.fin q) =
        JSNum.fin (q + specTotalValue jobs) := by
  induction jobs with
  | nil =>
    intro q _
    simp [specTotalValue]
  | cons j rest ih =>
    intro q hall
    have hj : (jobNumValue j).isFinite = true := hall j (List.mem_cons_self j rest)
    obtain ⟨r, hr⟩ : ∃ r, jobNumValue j = JSNum.fin r := by
      cases hjv : jobNumValue j <;> simp_all [JSNum.isFinite]
    show List.foldl _ (jsAdd (JSNum.fin q) (jobNumValue j)) rest = _
    rw [hr]
    show List.foldl _ (JSNum.fin (q + r)) rest = _
    rw [ih (q + r) (fun x hx => hall x (List.mem_cons_of_mem _ hx))]
    rw [specTotalValue_cons, jobNumValue_fin_spec hr]
    congr 1
    ring

theorem foldl_totalValue_nan (jobs : List Job) :
    ∀ a : JSNum, (∃ j ∈ jobs, jobNumValue j = JSNum.nan) →
      jobs.foldl (fun acc j => jsAdd acc (jobNumValue j)) a = JSNum.nan := by
  induction jobs with
  | nil =>
    intro a h
    simp at h
  | cons j rest ih =>
    intro a h
    show List.foldl _ (jsAdd a (jobNumValue j)) rest = _
    rcases h with ⟨x, hx, hnan⟩
    rcases List.mem_cons.mp hx with rfl | hx2
    · rw [hnan, jsAdd_nan_right]
      exact foldl_jsAdd_nan rest
    · exact ih _ ⟨x, hx2, hnan⟩

/-- C2 counterexample: a cached record whose value string strips to a
non-empty string with no numeric prefix makes the computed totalValue NaN,
so it does not equal the spec sum in which such a record contributes 0. -/
theorem C2_totalValue_claim_false :
    (updateDashboardStats [jobUnparsable]).totalValue ≠
      JSNum.fin (specTotalValue [jobUnparsable]) := by
  decide

/-- C2 amended: when every cached record has an absent value, a value that
strips to the empty string, or a value whose stripped string parses to a
finite number, totalValue equals the spec sum in which absent and empty
values contribute 0; but one record whose stripped value string is
non-empty and unparsable makes the whole totalValue NaN instead of
contributing 0. -/
theorem C2_totalValue_amended (jobs : List Job) :
    ((∀ j ∈ jobs, (jobNumValue j).isFinite = true) →
      (updateDashboardStats jobs).totalValue = JSNum.fin (specTotalValue jobs))
    ∧ ((∃ j ∈ jobs, jobNumValue j = JSNum.nan) →
      (updateDashboardStats jobs).totalValue = JSNum.nan) := by
  constructor
  · intro hall
    show totalValue jobs = _
    unfold totalValue
    rw [foldl_totalValue_fin jobs 0 hall, zero_add]
  · intro hex
    show totalValue jobs = _
    exact foldl_totalValue_nan jobs _ hex

/-- C2 amended witness: a parsable concrete record sums finitely and an
unparsable concrete record yields NaN. -/
theorem C2_totalValue_amended_witness :
    (updateDashboardStats [jobSeven]).totalValue = JSNum.fin (specTotalValue [jobSeven])
    ∧ (updateDashboardStats [jobUnparsable]).totalValue = JSNum.nan :=
  ⟨(C2_totalValue_amended [jobSeven]).1 (by decide),
   (C2_totalValue_amended [jobUnparsable]).2 (by decide)⟩

/-- C4: while signed out, createNewJob, selectJob and a view switch to
dashboard or jobDetail raise Access Denied; createNewJob and selectJob
leave state and store unchanged, and the view switch changes nothing but
forcing the signIn view. -/
theorem C4_signedOut_denied (s : AppState) (store : List StoredDoc)
    (cn ad ev : Option String) (ok : Bool) (newId : String) (now : Nat)
    (jobId : String) (h : s.currentUser = none) :
    createNewJob cn ad ev ok newId now s store =
        (s, store, [⟨"Access Denied", "Please sign in to create jobs"⟩])
    ∧ selectJob jobId s = (s, [⟨"Access Denied", "Please sign in to view jobs"⟩])
    ∧ showView "dashboard" s =
        ({ s with currentView := "signIn" },
          [⟨"Access Denied", "Please sign in to access TradieIQ"⟩])
    ∧ showView "jobDetail" s =
        ({ s with currentView := "signIn" },
          [⟨"Access Denied", "Please sign in to access TradieIQ"⟩]) := by
  refine ⟨?_, ?_, ?_, ?_⟩
  · unfold createNewJob
    rw [h]
  · unfold selectJob
    rw [if_pos h]
  · unfold showView
    rw [dif_pos ⟨Or.inl rfl, h⟩]
    simp [showView_signIn_eq]
  · unfold showView
    rw [dif_pos ⟨Or.inr rfl, h⟩]
    simp [showView_signIn_eq]

/-- C4 witness: instantiated at the initial signed-out state with concrete
inputs. -/
theorem C4_signedOut_denied_witness :
    createNewJob (some "Acme") (some "1 Main St") (some "$1,500") true "job-1" 0 initState [] =
        (initState, [], [⟨"Access Denied", "Please sign in to create jobs"⟩])
    ∧ selectJob "job-7" initState =
        (initState, [⟨"Access Denied", "Please sign in to view jobs"⟩])
    ∧ showView "dashboard" initState =
        ({ initState with currentView := "signIn" },
          [⟨"Access Denied", "Please sign in to access TradieIQ"⟩])
    ∧ showView "jobDetail" initState =
        ({ initState with currentView := "signIn" },
          [⟨"Access Denied", "Please sign in to access TradieIQ"⟩]) :=
  C4_signedOut_denied initState [] (some "Acme") (some "1 Main St") (some "$1,500")
    true "job-1" 0 "job-7" rfl

/-- C8 counterexample: creating a job with the client input padded with
spaces submits exactly one record, and its client field differs from the
input, because createNewJob trims it; the fields are not carried unchanged
as claimed. -/
theorem C8_fields_unchanged_false :
    (createNewJob (some " Acme ") (some "1 Main St") (some "$1,500")
        true "job-1" 7 signedInState []).2.1 ≠ []
    ∧ ∀ d ∈ (createNewJob (some " Acme ") (some "1 Main St") (some "$1,500")
        true "job-1" 7 signedInState []).2.1, d.data.client ≠ " Acme " := by
  decide

/-- C8 amended: while signed in, with a client prompt and an address prompt
that are non-blank after trimming and a non-empty value prompt, the
submitted record carries the trimmed client, the trimmed address, the value
string unchanged and status new, and that record appears in the next push
of the owner-scoped query. -/
theorem C8_roundTrip_trimmed (s : AppState) (store : List StoredDoc)
    (cn ad ev newId : String) (now : Nat) (u : User)
    (hu : s.currentUser = some u) (hcn : jsTrim cn ≠ "") (had : jsTrim ad ≠ "")
    (hev : ev ≠ "") :
    (createNewJob (some cn) (some ad) (some ev) true newId now s store).2.1 =
      store ++ [⟨newId,
        { client := jsTrim cn, address := jsTrim ad, value := ev, status := "new",
          transcript := "", summary := "", tasks := [], materials := [],
          userId := u.uid, createdAt := now, updatedAt := now }⟩]
    ∧ docToJob ⟨newId,
        { client := jsTrim cn, address := jsTrim ad, value := ev, status := "new",
          transcript := "", summary := "", tasks := [], materials := [],
          userId := u.uid, createdAt := now, updatedAt := now }⟩ ∈
      snapshotJobs u.uid
        (createNewJob (some cn) (some ad) (some ev) true newId now s store).2.1 := by
  have hstore : (createNewJob (some cn) (some ad) (some ev) true newId now s store).2.1 =
      store ++ [⟨newId,
        { client := jsTrim cn, address := jsTrim ad, value := ev, status := "new",
          transcript := "", summary := "", tasks := [], materials := [],
          userId := u.uid, createdAt := now, updatedAt := now }⟩] := by
    simp [createNewJob, hu, hcn, had, hev, jsOrString, addDoc]
  refine ⟨hstore, ?_⟩
  rw [hstore]
  unfold snapshotJobs querySnapshot
  apply List.mem_map_of_mem
  apply List.mem_mergeSort.mpr
  apply List.mem_filter.mpr
  refine ⟨List.mem_append_right _ (List.mem_singleton.mpr rfl), by simp⟩

/-- C8 amended witness: instantiated at the concrete signed-in state and
the concrete prompts. -/
theorem C8_roundTrip_trimmed_witness :
    (createNewJob (some "Acme") (some "1 Main St") (some "$1,500")
        true "job-1" 7 signedInState []).2.1 =
      [] ++ [⟨"job-1",
        { client := jsTrim "Acme", address := jsTrim "1 Main St", value := "$1,500",
          status := "new", transcript := "", summary := "", tasks := [], materials := [],
          userId := userAlice.uid, createdAt := 7, updatedAt := 7 }⟩]
    ∧ docToJob ⟨"job-1",
        { client := jsTrim "Acme", address := jsTrim "1 Main St", value := "$1,500",
          status := "new", transcript := "", summary := "", tasks := [], materials := [],
          userId := userAlice.uid, createdAt := 7, updatedAt := 7 }⟩ ∈
      snapshotJobs userAlice.uid
        (createNewJob (some "Acme") (some "1 Main St") (some "$1,500")
          true "job-1" 7 signedInState []).2.1 :=
  C8_roundTrip_trimmed signedInState [] "Acme" "1 Main St" "$1,500" "job-1" 7 userAlice
    rfl (by decide) (by decide) (by decide)

end TradieIQ
